import Mathlib

/-!
Verification of the device discovery and hot-plug synchronization engine of
libsoundiomini (src/src/alsa.cpp), via a shallow embedding in Lean 4.

Strings are modelled as lists of characters (`Str`), machine unsigned
integers as `Nat` with explicit reduction modulo 2^32 where C unsigned
wrap-around matters, and the fallible OS/ALSA calls as explicit oracle
fields of an environment structure.  Each definition names the source
function it embeds and the line range it covers.
-/

/-- Strings from the C source, as lists of characters. -/
abbrev Str := List Char

/-- Embeds str_partition_on_char (alsa.cpp:75-84): splits at the first
occurrence of `c`, returning the part before it and, when `c` occurs,
the part after it (the C function truncates in place and returns the
tail pointer, or nullptr when `c` does not occur). -/
def str_partition_on_char : Str → Char → Str × Option Str
  | [], _ => ([], none)
  | a :: rest, c =>
    if a = c then ([], some rest)
    else
      let p := str_partition_on_char rest c
      (a :: p.1, p.2)

/-- Embeds str_has_prefix (alsa.cpp:245-247):
strncmp(big_str, prefix, strlen(prefix)) == 0. -/
def str_has_prefix : Str → Str → Bool
  | _, [] => true
  | [], _ :: _ => false
  | b :: bs, p :: ps => b == p && str_has_prefix bs ps

/-- Embeds the C library strstr as used at alsa.cpp:311: true iff `needle`
occurs as a contiguous substring of `hay` (an empty needle is always found). -/
def strstr_found : Str → Str → Bool
  | [], needle => str_has_prefix [] needle
  | h :: rest, needle => str_has_prefix (h :: rest) needle || strstr_found rest needle

/-- SoundIoDevicePurpose (soundio.hpp is not in src/; the two purposes
Output and Input are named throughout alsa.cpp). -/
inductive Purpose
  | output
  | input
deriving DecidableEq

/-- The SoundIoError codes that alsa.cpp returns from its discovery core. -/
inductive SoundIoError
  | NoMem
  | SystemResources
  | OpeningDevice
deriving DecidableEq

/-- Result of a step of the enumeration: success, an error code returned to
the caller, or a process abort through soundio_panic. -/
inductive Outcome (α : Type)
  | ok (a : α)
  | err (e : SoundIoError)
  | panic (msg : Str)
deriving DecidableEq

/-- True iff the outcome is `ok`. -/
def Outcome.isOk {α : Type} : Outcome α → Bool
  | .ok _ => true
  | _ => false

/-- The `ok` payload, or the supplied default. -/
def Outcome.okD {α : Type} (o : Outcome α) (d : α) : α :=
  match o with
  | .ok a => a
  | _ => d

/-- MAX_SAMPLE_RATE (alsa.cpp:18). -/
def MAX_SAMPLE_RATE : Nat := 48000

/-- Unsigned 32-bit decrement, as C `unsigned int` arithmetic wraps
(alsa.cpp:210 and 217 adjust the queried rates by one). -/
def u32_dec (n : Nat) : Nat := (n + 4294967295) % 4294967296

/-- Unsigned 32-bit increment. -/
def u32_inc (n : Nat) : Nat := (n + 1) % 4294967296

/-- The fields of SoundIoDevice that the discovery core of alsa.cpp writes
(name, description, is_raw, purpose at creation; the sample-rate fields in
probe_device).  The channel-layout side of probe_device is modelled
separately by `handle_channel_maps_best`, since the claims under
verification depend only on which channel-map candidate is selected. -/
structure Device where
  name : Str
  description : Str
  is_raw : Bool
  purpose : Purpose
  sample_rate_min : Nat
  sample_rate_max : Nat
  sample_rate_default : Nat
deriving DecidableEq

/-- The outcome of the ALSA calls probe_device makes for one device:
whether snd_pcm_open succeeds (alsa.cpp:173), whether the parameter
setup and rate queries succeed (alsa.cpp:178-217, each failing call
returns SoundIoErrorOpeningDevice with the rate fields untouched), and
the queried rate extrema with their direction flags. -/
structure ProbeEnv where
  open_ok : Bool
  params_ok : Bool
  max_rate : Nat
  max_dir : Int
  min_rate : Nat
  min_dir : Int

/-- Embeds the sample-rate portion of probe_device (alsa.cpp:161-243).
On success the source executes, in order:
  alsa.cpp:209-210  if (max_dir < 0) max_sample_rate -= 1;
  alsa.cpp:216-217  if (min_dir > 0) min_sample_rate += 1;
  alsa.cpp:231      device->sample_rate_min = min_sample_rate;
  alsa.cpp:232      device->sample_rate_min = max_sample_rate;   (same field again)
  alsa.cpp:233-235  device->sample_rate_default = 48000 if in range else max.
Note line 232 overwrites line 231 and no line assigns sample_rate_max. -/
def probe_device (d : Device) (p : ProbeEnv) : Option SoundIoError × Device :=
  if !p.open_ok then (some SoundIoError.OpeningDevice, d)
  else if !p.params_ok then (some SoundIoError.OpeningDevice, d)
  else
    let max_sample_rate := if p.max_dir < 0 then u32_dec p.max_rate else p.max_rate
    let min_sample_rate := if p.min_dir > 0 then u32_inc p.min_rate else p.min_rate
    let d := { d with sample_rate_min := min_sample_rate }
    let d := { d with sample_rate_min := max_sample_rate }
    let d := { d with sample_rate_default :=
      if min_sample_rate ≤ MAX_SAMPLE_RATE ∧ MAX_SAMPLE_RATE ≤ max_sample_rate
      then MAX_SAMPLE_RATE else max_sample_rate }
    (none, d)

/-- A channel map candidate (snd_pcm_chmap_t): a channel count and the
channel positions. -/
structure Chmap where
  channels : Nat
  pos : List Nat
deriving DecidableEq

/-- Embeds the best-candidate selection loop of handle_channel_maps
(alsa.cpp:152-156): `best` starts as nullptr and is replaced exactly when
the next candidate has strictly more channels. -/
def handle_channel_maps_best : Option Chmap → List Chmap → Option Chmap
  | best, [] => best
  | best, v :: rest =>
    handle_channel_maps_best
      (match best with
       | none => some v
       | some b => if b.channels < v.channels then some v else some b) rest

/-- A device hint from snd_device_name_hint: the NAME, DESC and IOID
strings queried at alsa.cpp:263, 284 and 287 (IOID may be absent). -/
structure Hint where
  name : Str
  descr : Str
  ioid : Option Str

/-- Whether snd_ctl_pcm_info reports a (card, device, stream) combination
(alsa.cpp:422-430): 0 = present, -ENOENT = absent (skipped), any other
error aborts the pass with SoundIoErrorSystemResources. -/
inductive StreamStatus
  | present
  | absent
  | failed
deriving DecidableEq

/-- One PCM sub-device of a card, as reported by the control interface:
its driver-assigned index, its name (snd_pcm_info_get_name, alsa.cpp:432)
and the status of each stream direction. -/
structure PcmDev where
  index : Nat
  name : Str
  playback : StreamStatus
  capture : StreamStatus

/-- One step of the sub-device iteration (alsa.cpp:406-413):
snd_ctl_pcm_next_device either fails (aborting the pass) or yields the
next sub-device; the list ending models the index turning negative. -/
inductive DevStep
  | nextErr
  | dev (d : PcmDev)

/-- Result of snd_ctl_open for one card (alsa.cpp:389-396): success,
-ENOENT (stop scanning cards, keep what was found), or another error
(abort the pass with SoundIoErrorOpeningDevice). -/
inductive CtlOpenResult
  | opened
  | enoent
  | failed
deriving DecidableEq

/-- One hardware card as the registry reports it: its index from
snd_card_next, the snd_ctl_open outcome, whether snd_ctl_card_info
succeeds (alsa.cpp:398-402), its name, and its sub-device iteration. -/
structure Card where
  index : Nat
  ctl_open : CtlOpenResult
  info_ok : Bool
  name : Str
  devs : List DevStep

/-- One step of the card iteration: snd_card_next either fails
(alsa.cpp:375, 474: abort with SoundIoErrorSystemResources) or yields the
next card; the list ending models the index turning negative. -/
inductive CardStep
  | nextErr
  | card (c : Card)

/-- The environment one enumeration pass runs against: which allocation
call fails (counting the checked allocation sites of refresh_devices from
zero), whether snd_device_name_hint succeeds (alsa.cpp:257), the hint
list, a probe oracle giving each (device name, purpose) its ALSA query
outcomes, and the hardware card registry. -/
structure AlsaEnv where
  alloc_fail_at : Option Nat
  hints_ok : Bool
  hints : List Hint
  probe : Str → Purpose → ProbeEnv
  card_steps : List CardStep

/-- Whether the checked allocation number `c` succeeds under `env`. -/
def alloc_ok (env : AlsaEnv) (c : Nat) : Bool :=
  env.alloc_fail_at != some c

/-- SoundIoDevicesInfo: the two insertion-ordered device lists and the
default index of each.  The default indexes are modelled from the spec
("an optional default-index per list (index into that list, or none)"),
as soundio.hpp is not part of src/. -/
structure DevicesInfo where
  output_devices : List Device
  input_devices : List Device
  default_output_index : Option Nat
  default_input_index : Option Nat
deriving DecidableEq

/-- The freshly created SoundIoDevicesInfo of alsa.cpp:252. -/
def empty_devices_info : DevicesInfo :=
  { output_devices := [], input_devices := [],
    default_output_index := none, default_input_index := none }

/-- Embeds the exclusion test of alsa.cpp:266-278: the hint is skipped when
its name is exactly "null" or carries one of the listed prefixes. -/
def hint_name_excluded (name : Str) : Bool :=
  name == ("null".toList) ||
  str_has_prefix name ("sysdefault:".toList) ||
  str_has_prefix name ("front:".toList) ||
  str_has_prefix name ("surround21:".toList) ||
  str_has_prefix name ("surround40:".toList) ||
  str_has_prefix name ("surround41:".toList) ||
  str_has_prefix name ("surround50:".toList) ||
  str_has_prefix name ("surround51:".toList) ||
  str_has_prefix name ("surround71:".toList)

/-- Embeds the IOID interpretation of alsa.cpp:287-304: "Input" means
capture only, "Output" playback only, any other present value panics
("invalid io hint value"), an absent IOID means both directions.
Returns (is_playback, is_capture). -/
def hint_direction : Option Str → Outcome (Bool × Bool)
  | some io =>
    if io = ("Input".toList) then Outcome.ok (false, true)
    else if io = ("Output".toList) then Outcome.ok (true, false)
    else Outcome.panic ("invalid io hint value".toList)
  | none => Outcome.ok (true, true)

/-- The capture-suppression test of alsa.cpp:310-311: the secondary
description text exists and strstr finds "Output" or "output" in it. -/
def descr1_mentions_output : Option Str → Bool
  | some d1 => strstr_found d1 ("Output".toList) || strstr_found d1 ("output".toList)
  | none => false

/-- Embeds one iteration of the stream-type loop of the hint scan
(alsa.cpp:306-365) for a hint already past the exclusion test, with the
description already partitioned into `descr` and optional `descr1`.
The three `continue` conditions come first; then the checked allocations
(create at `ac`, strdup of the name at `ac`+1, the description allocation
at `ac`+2, the list append at `ac`+3), the default-index assignment made
before the append, the probe (its return value is ignored, alsa.cpp:355),
and the append itself. -/
def process_hint_stream (env : AlsaEnv) (name descr : Str) (descr1 : Option Str)
    (is_playback is_capture : Bool) (stream : Purpose)
    (info : DevicesInfo) (ac : Nat) : Outcome (DevicesInfo × Nat) :=
  if stream = Purpose.output ∧ !is_playback then Outcome.ok (info, ac)
  else if stream = Purpose.input ∧ !is_capture then Outcome.ok (info, ac)
  else if stream = Purpose.input ∧ descr1_mentions_output descr1 then Outcome.ok (info, ac)
  else if !(alloc_ok env ac) then Outcome.err SoundIoError.NoMem
  else if !(alloc_ok env (ac + 1)) || !(alloc_ok env (ac + 2)) then Outcome.err SoundIoError.NoMem
  else
    let description := match descr1 with
      | some d1 => descr ++ (':' :: ' ' :: d1)
      | none => descr
    let device0 : Device :=
      { name := name, description := description, is_raw := false, purpose := stream,
        sample_rate_min := 0, sample_rate_max := 0, sample_rate_default := 0 }
    let info :=
      if stream = Purpose.output then
        if str_has_prefix name ("default:".toList) then
          { info with default_output_index := some info.output_devices.length }
        else info
      else
        if str_has_prefix name ("default:".toList) then
          { info with default_input_index := some info.input_devices.length }
        else info
    let device := (probe_device device0 (env.probe name stream)).2
    if !(alloc_ok env (ac + 3)) then Outcome.err SoundIoError.NoMem
    else if stream = Purpose.output then
      Outcome.ok ({ info with output_devices := info.output_devices ++ [device] }, ac + 4)
    else
      Outcome.ok ({ info with input_devices := info.input_devices ++ [device] }, ac + 4)

/-- Embeds the body of the hint loop for one hint (alsa.cpp:262-368):
exclusion test, description partition at the first newline, IOID
interpretation, then the stream-type loop over playback and capture. -/
def process_hint (env : AlsaEnv) (h : Hint) (info : DevicesInfo) (ac : Nat) :
    Outcome (DevicesInfo × Nat) :=
  if hint_name_excluded h.name then Outcome.ok (info, ac)
  else
    match hint_direction h.ioid with
    | Outcome.panic m => Outcome.panic m
    | Outcome.err e => Outcome.err e
    | Outcome.ok dirs =>
      match process_hint_stream env h.name (str_partition_on_char h.descr '\n').1
          (str_partition_on_char h.descr '\n').2 dirs.1 dirs.2 Purpose.output info ac with
      | Outcome.panic m => Outcome.panic m
      | Outcome.err e => Outcome.err e
      | Outcome.ok r =>
        process_hint_stream env h.name (str_partition_on_char h.descr '\n').1
          (str_partition_on_char h.descr '\n').2 dirs.1 dirs.2 Purpose.input r.1 r.2

/-- The hint loop of alsa.cpp:262-369 over the whole hint list. -/
def process_hints (env : AlsaEnv) : List Hint → DevicesInfo → Nat →
    Outcome (DevicesInfo × Nat)
  | [], info, ac => Outcome.ok (info, ac)
  | h :: rest, info, ac =>
    match process_hint env h info ac with
    | Outcome.panic m => Outcome.panic m
    | Outcome.err e => Outcome.err e
    | Outcome.ok r => process_hints env rest r.1 r.2

/-- The raw device name "hw:%d,%d" of alsa.cpp:442. -/
def raw_device_name (card_index dev_index : Nat) : Str :=
  ("hw:".toList) ++ (Nat.repr card_index).toList ++ (',' :: (Nat.repr dev_index).toList)

/-- Embeds one iteration of the stream-type loop of the raw-device scan
(alsa.cpp:418-471) for one (card, sub-device) pair: the snd_ctl_pcm_info
status decides skip/abort, then the checked allocations (create at `ac`,
the name sprintf at `ac`+1, the description sprintf at `ac`+2, the append
at `ac`+3), the probe (return value ignored, alsa.cpp:464), and the
append.  No default index is assigned on this path. -/
def raw_device_stream (env : AlsaEnv) (c : Card) (d : PcmDev) (stream : Purpose)
    (info : DevicesInfo) (ac : Nat) : Outcome (DevicesInfo × Nat) :=
  match (if stream = Purpose.output then d.playback else d.capture) with
  | StreamStatus.absent => Outcome.ok (info, ac)
  | StreamStatus.failed => Outcome.err SoundIoError.SystemResources
  | StreamStatus.present =>
    if !(alloc_ok env ac) then Outcome.err SoundIoError.NoMem
    else if !(alloc_ok env (ac + 1)) || !(alloc_ok env (ac + 2)) then Outcome.err SoundIoError.NoMem
    else
      let name := raw_device_name c.index d.index
      let device0 : Device :=
        { name := name, description := c.name ++ (' ' :: d.name),
          is_raw := true, purpose := stream,
          sample_rate_min := 0, sample_rate_max := 0, sample_rate_default := 0 }
      let device := (probe_device device0 (env.probe name stream)).2
      if !(alloc_ok env (ac + 3)) then Outcome.err SoundIoError.NoMem
      else if stream = Purpose.output then
        Outcome.ok ({ info with output_devices := info.output_devices ++ [device] }, ac + 4)
      else
        Outcome.ok ({ info with input_devices := info.input_devices ++ [device] }, ac + 4)

/-- Both stream directions of one (card, sub-device) pair, playback first
(stream_types, alsa.cpp:16). -/
def raw_device_streams (env : AlsaEnv) (c : Card) (d : PcmDev)
    (info : DevicesInfo) (ac : Nat) : Outcome (DevicesInfo × Nat) :=
  match raw_device_stream env c d Purpose.output info ac with
  | Outcome.panic m => Outcome.panic m
  | Outcome.err e => Outcome.err e
  | Outcome.ok r => raw_device_stream env c d Purpose.input r.1 r.2

/-- The sub-device loop of one card (alsa.cpp:406-472). -/
def scan_card_devs (env : AlsaEnv) (c : Card) : List DevStep → DevicesInfo → Nat →
    Outcome (DevicesInfo × Nat)
  | [], info, ac => Outcome.ok (info, ac)
  | DevStep.nextErr :: _, _, _ => Outcome.err SoundIoError.SystemResources
  | DevStep.dev d :: rest, info, ac =>
    match raw_device_streams env c d info ac with
    | Outcome.panic m => Outcome.panic m
    | Outcome.err e => Outcome.err e
    | Outcome.ok r => scan_card_devs env c rest r.1 r.2

/-- The card loop of alsa.cpp:373-478: snd_card_next failures abort with
SoundIoErrorSystemResources; snd_ctl_open -ENOENT breaks out of the loop
with the devices found so far (alsa.cpp:391); other open failures abort
with SoundIoErrorOpeningDevice; a card-info failure aborts with
SoundIoErrorSystemResources. -/
def scan_cards (env : AlsaEnv) : List CardStep → DevicesInfo → Nat →
    Outcome (DevicesInfo × Nat)
  | [], info, ac => Outcome.ok (info, ac)
  | CardStep.nextErr :: _, _, _ => Outcome.err SoundIoError.SystemResources
  | CardStep.card c :: rest, info, ac =>
    match c.ctl_open with
    | CtlOpenResult.enoent => Outcome.ok (info, ac)
    | CtlOpenResult.failed => Outcome.err SoundIoError.OpeningDevice
    | CtlOpenResult.opened =>
      if !c.info_ok then Outcome.err SoundIoError.SystemResources
      else
        match scan_card_devs env c c.devs info ac with
        | Outcome.panic m => Outcome.panic m
        | Outcome.err e => Outcome.err e
        | Outcome.ok r => scan_cards env rest r.1 r.2

/-- The whole enumeration pass of refresh_devices before publication
(alsa.cpp:252-478): the devices-info allocation (checked allocation 0),
the snd_device_name_hint call, the hint scan and the raw-device scan.
No part of the shared engine state is read or written here; every early
return leaves it untouched. -/
def enumerate_pass (env : AlsaEnv) : Outcome DevicesInfo :=
  if !(alloc_ok env 0) then Outcome.err SoundIoError.NoMem
  else if !env.hints_ok then Outcome.err SoundIoError.NoMem
  else
    match process_hints env env.hints empty_devices_info 1 with
    | Outcome.panic m => Outcome.panic m
    | Outcome.err e => Outcome.err e
    | Outcome.ok r =>
      match scan_cards env env.card_steps r.1 r.2 with
      | Outcome.panic m => Outcome.panic m
      | Outcome.err e => Outcome.err e
      | Outcome.ok r2 => Outcome.ok r2.1

/-- The engine state refresh_devices shares with the consumer: the
exchange slot (SoundIoAlsa.ready_devices_info, alsa.cpp:32) and the
have-published flag (have_devices_flag, alsa.cpp:28). -/
structure AlsaState where
  ready_devices_info : Option DevicesInfo
  have_devices_flag : Bool
deriving DecidableEq

/-- Embeds refresh_devices (alsa.cpp:249-487).  Every failing path returns
its error code before the publication block at alsa.cpp:480-485 and so
leaves the shared state exactly as it was; the publication replaces the
slot content (destroying any unclaimed snapshot) and raises the flag. -/
def refresh_devices (env : AlsaEnv) (st : AlsaState) : Outcome Unit × AlsaState :=
  match enumerate_pass env with
  | Outcome.err e => (Outcome.err e, st)
  | Outcome.panic m => (Outcome.panic m, st)
  | Outcome.ok info =>
    (Outcome.ok (), { ready_devices_info := some info, have_devices_flag := true })

/-- The state flush_events operates on: the engine state plus the
consumer-owned current inventory (SoundIo.safe_devices_info). -/
structure SoundIoState where
  alsa : AlsaState
  safe_devices_info : Option DevicesInfo
deriving DecidableEq

/-- Embeds flush_events (alsa.cpp:592-614).  The leading
block_until_have_devices only waits and changes no state, so it is not
part of the state transition.  Returns whether the on_devices_change
callback fired, and the new state: when the slot holds a snapshot it
becomes the current inventory and the slot is emptied; otherwise nothing
changes and no callback fires. -/
def flush_events (st : SoundIoState) : Bool × SoundIoState :=
  match st.alsa.ready_devices_info with
  | some info =>
    (true, { alsa := { st.alsa with ready_devices_info := none },
             safe_devices_info := some info })
  | none => (false, st)

/-- One raw inotify notification record as device_thread_run reads it:
the event-mask bits it tests (IN_CREATE, IN_DELETE, IN_ISDIR), the name
length field, and the name bytes. -/
structure InotifyEvent where
  is_create : Bool
  is_delete : Bool
  is_dir : Bool
  len : Nat
  name : Str

/-- The name test of alsa.cpp:550-555: the first three name bytes are
'p', 'c', 'm'. -/
def name_starts_pcm : Str → Bool
  | 'p' :: 'c' :: 'm' :: _ => true
  | _ => false

/-- Embeds the per-record filter of device_thread_run (alsa.cpp:544-555):
a record qualifies when its mask has IN_CREATE or IN_DELETE, does not
have IN_ISDIR, its len field is neither zero nor below 8, and its name
begins with "pcm". -/
def event_qualifies (e : InotifyEvent) : Bool :=
  (e.is_create || e.is_delete) &&
  !e.is_dir &&
  !(e.len == 0 || e.len < 8) &&
  name_starts_pcm e.name

/-- The scan of one read buffer (alsa.cpp:541-558): got_rescan_event
becomes true and the buffer scan breaks at the first qualifying record. -/
def scan_buffer (got : Bool) : List InotifyEvent → Bool
  | [] => got
  | e :: rest => if event_qualifies e then true else scan_buffer got rest

/-- The inotify drain loop (alsa.cpp:526-559): buffers are read until the
descriptor is exhausted, each one scanned in turn. -/
def drain_inotify (got : Bool) : List (List InotifyEvent) → Bool
  | [] => got
  | buf :: more => drain_inotify (scan_buffer got buf) more

/-- What one wake cycle of the watcher thread does after poll returns. -/
inductive CycleAction
  | exit
  | refresh
  | idle
deriving DecidableEq

/-- Embeds one iteration of the device_thread_run loop (alsa.cpp:509-580)
after a successful poll: the abort flag is checked first; otherwise the
ready descriptors are drained (`bufs` are the inotify reads when that
descriptor was ready, and a ready wakeup pipe sets got_rescan_event
unconditionally, alsa.cpp:561-562), and refresh_devices is invoked once
iff got_rescan_event ended up true. -/
def device_thread_cycle (abort_requested inotify_ready pipe_ready : Bool)
    (bufs : List (List InotifyEvent)) : CycleAction :=
  if abort_requested then CycleAction.exit
  else
    let got := if inotify_ready then drain_inotify false bufs else false
    let got := got || pipe_ready
    if got then CycleAction.refresh else CycleAction.idle

/-- How many times one wake cycle invokes the enumeration pass
(alsa.cpp:576-579: a single call guarded by got_rescan_event). -/
def cycle_refresh_count (abort_requested inotify_ready pipe_ready : Bool)
    (bufs : List (List InotifyEvent)) : Nat :=
  if device_thread_cycle abort_requested inotify_ready pipe_ready bufs = CycleAction.refresh
  then 1 else 0

/-- A probe query on which every ALSA call succeeds, with queried minimum
rate 8000 (direction 0) and queried maximum rate 96000 (direction 0). -/
def sample_probe_query : ProbeEnv :=
  { open_ok := true, params_ok := true,
    max_rate := 96000, max_dir := 0, min_rate := 8000, min_dir := 0 }

/-- A freshly created device stub before probing, all rate fields zero. -/
def claim1_stub : Device :=
  { name := ("hw:0,0".toList), description := ("stub".toList), is_raw := true,
    purpose := Purpose.output,
    sample_rate_min := 0, sample_rate_max := 0, sample_rate_default := 0 }

/-- C1: evaluating probe_device on a successful probe with queried minimum
8000 and maximum 96000 shows the claim fails on the code: the minimum
field receives the queried maximum (alsa.cpp:232 overwrites the
assignment of alsa.cpp:231), the maximum field is never assigned and
keeps its initial value, and only the default-rate clause of the claim
(48000 when within range) holds. -/
theorem claim1_probe_rate_fields :
    (probe_device claim1_stub sample_probe_query).1 = none ∧
    ((probe_device claim1_stub sample_probe_query).2).sample_rate_min = 96000 ∧
    ((probe_device claim1_stub sample_probe_query).2).sample_rate_max = 0 ∧
    ((probe_device claim1_stub sample_probe_query).2).sample_rate_default = 48000 := by
  decide

/-- C2: refresh_devices never publishes a partial snapshot: every error
return leaves the exchange slot and the have-published flag exactly as
they were, and a successful return publishes precisely the snapshot the
completed pass assembled, raising the flag. -/
theorem claim2_no_partial_publish (env : AlsaEnv) (st : AlsaState) :
    (∀ e : SoundIoError,
      (refresh_devices env st).1 = Outcome.err e → (refresh_devices env st).2 = st) ∧
    ((refresh_devices env st).1 = Outcome.ok () →
      ∃ info : DevicesInfo, enumerate_pass env = Outcome.ok info ∧
        (refresh_devices env st).2 =
          { ready_devices_info := some info, have_devices_flag := true }) := by
  unfold refresh_devices
  cases h : enumerate_pass env <;> simp

/-- Enumeration environment whose very first allocation fails. -/
def claim2_env : AlsaEnv :=
  { alloc_fail_at := some 0, hints_ok := true, hints := [],
    probe := fun _ _ => sample_probe_query, card_steps := [] }

/-- A state holding an unclaimed snapshot and a raised flag. -/
def claim2_state : AlsaState :=
  { ready_devices_info := some empty_devices_info, have_devices_flag := true }

/-- Witness for C2: a pass whose initial allocation fails leaves the
engine state untouched. -/
theorem claim2_witness : (refresh_devices claim2_env claim2_state).2 = claim2_state :=
  (claim2_no_partial_publish claim2_env claim2_state).1 SoundIoError.NoMem (by decide)

/-- A qualifying creation record. -/
def claim7_event1 : InotifyEvent :=
  { is_create := true, is_delete := false, is_dir := false, len := 16,
    name := ("pcmC0D0p".toList) }

/-- A qualifying deletion record. -/
def claim7_event2 : InotifyEvent :=
  { is_create := false, is_delete := true, is_dir := false, len := 16,
    name := ("pcmC1D0c".toList) }

/-- C7: one wake cycle of the watcher thread invokes the enumeration pass
at most once whatever events were pending, and a cycle that drained two
qualifying change events invokes it exactly once. -/
theorem claim7_refresh_once_per_cycle :
    (∀ (a i p : Bool) (bufs : List (List InotifyEvent)),
      cycle_refresh_count a i p bufs ≤ 1) ∧
    cycle_refresh_count false true false [[claim7_event1, claim7_event2]] = 1 := by
  constructor
  · intro a i p bufs
    unfold cycle_refresh_count
    split <;> simp
  · decide

/-- C8: two flush_events calls with no publication in between invoke the
change callback at most once in total: the second call fires no callback
and changes nothing, and in general a call that finds the exchange slot
empty is a no-op that fires no callback. -/
theorem claim8_flush_idempotent :
    (∀ st : SoundIoState, flush_events (flush_events st).2 = (false, (flush_events st).2)) ∧
    (∀ st : SoundIoState, st.alsa.ready_devices_info = none → flush_events st = (false, st)) := by
  constructor
  · intro st
    cases h : st.alsa.ready_devices_info <;> simp [flush_events, h]
  · intro st h
    simp [flush_events, h]

/-- A consumer state whose exchange slot is empty. -/
def claim8_state : SoundIoState :=
  { alsa := { ready_devices_info := none, have_devices_flag := true },
    safe_devices_info := some empty_devices_info }

/-- Witness for C8: a flush over an empty slot is a no-op with no callback. -/
theorem claim8_witness : flush_events claim8_state = (false, claim8_state) :=
  claim8_flush_idempotent.2 claim8_state (by decide)

theorem scan_buffer_all_false (buf : List InotifyEvent) (got : Bool)
    (h : ∀ ev ∈ buf, event_qualifies ev = false) : scan_buffer got buf = got := by
  induction buf with
  | nil => rfl
  | cons e rest ih =>
    have he : event_qualifies e = false := h e (List.mem_cons_self e rest)
    simp only [scan_buffer, he, Bool.false_eq_true, if_false]
    exact ih (fun ev hev => h ev (List.mem_cons_of_mem e hev))

theorem drain_inotify_all_false (bufs : List (List InotifyEvent)) (got : Bool)
    (h : ∀ buf ∈ bufs, ∀ ev ∈ buf, event_qualifies ev = false) :
    drain_inotify got bufs = got := by
  induction bufs generalizing got with
  | nil => rfl
  | cons buf more ih =>
    simp only [drain_inotify]
    rw [scan_buffer_all_false buf got (h buf (List.mem_cons_self buf more))]
    exact ih got (fun b hb => h b (List.mem_cons_of_mem buf hb))

/-- C6: the raw-record filter accepts a record exactly when its mask has
creation or deletion, its directory flag is unset, its length field is at
least 8, and its name begins with "pcm"; and a wake cycle that drained
only non-qualifying records (with the wakeup pipe quiet) never invokes
the enumeration pass. -/
theorem claim6_qualifying_filter :
    (∀ e : InotifyEvent,
      event_qualifies e = true ↔
        ((e.is_create || e.is_delete) = true ∧ e.is_dir = false ∧
          8 ≤ e.len ∧ name_starts_pcm e.name = true)) ∧
    (∀ bufs : List (List InotifyEvent),
      (∀ buf ∈ bufs, ∀ ev ∈ buf, event_qualifies ev = false) →
      device_thread_cycle false true false bufs ≠ CycleAction.refresh) := by
  constructor
  · intro e
    cases hc : e.is_create <;> cases hd : e.is_delete <;> cases hdir : e.is_dir <;>
      cases hn : name_starts_pcm e.name <;>
        simp [event_qualifies, hc, hd, hdir, hn] <;> omega
  · intro bufs h
    unfold device_thread_cycle
    rw [if_neg (by simp)]
    rw [if_pos rfl, drain_inotify_all_false bufs false h]
    simp

/-- A non-qualifying record: a creation in the watched directory whose
name does not carry the "pcm" prefix. -/
def claim6_bad_event : InotifyEvent :=
  { is_create := true, is_delete := false, is_dir := false, len := 16,
    name := ("controlC0".toList) }

/-- Witness for C6: a cycle that drained only that record runs no pass. -/
theorem claim6_witness :
    device_thread_cycle false true false [[claim6_bad_event]] ≠ CycleAction.refresh :=
  claim6_qualifying_filter.2 [[claim6_bad_event]] (by decide)

/-- Enumeration environment whose only hint carries the unrecognised IOID
value "Duplex". -/
def claim10_env : AlsaEnv :=
  { alloc_fail_at := none, hints_ok := true,
    hints := [{ name := ("weird".toList), descr := ("Weird device".toList),
                ioid := some ("Duplex".toList) }],
    probe := fun _ _ => sample_probe_query, card_steps := [] }

/-- C10: a hint whose IOID is present but neither "Input" nor "Output"
makes the pass abort the process through soundio_panic("invalid io hint
value") (alsa.cpp:298) instead of returning an error code or treating
the hint as bidirectional; concretely, a whole refresh over such a hint
list ends in that panic. -/
theorem claim10_invalid_ioid_aborts :
    (∀ (env : AlsaEnv) (h : Hint) (info : DevicesInfo) (ac : Nat) (io : Str),
      h.ioid = some io → io ≠ ("Input".toList) → io ≠ ("Output".toList) →
      hint_name_excluded h.name = false →
      process_hint env h info ac = Outcome.panic ("invalid io hint value".toList)) ∧
    (refresh_devices claim10_env
        { ready_devices_info := none, have_devices_flag := false }).1 =
      Outcome.panic ("invalid io hint value".toList) := by
  constructor
  · intro env h info ac io hio h1 h2 hex
    have h1' : io ≠ ['I', 'n', 'p', 'u', 't'] := h1
    have h2' : io ≠ ['O', 'u', 't', 'p', 'u', 't'] := h2
    unfold process_hint
    simp [hex, hio, hint_direction, h1', h2']
  · decide

/-- Witness for C10: the concrete "Duplex" hint makes process_hint panic. -/
theorem claim10_witness :
    process_hint claim10_env
      { name := ("weird".toList), descr := ("Weird device".toList),
        ioid := some ("Duplex".toList) }
      empty_devices_info 1 = Outcome.panic ("invalid io hint value".toList) :=
  claim10_invalid_ioid_aborts.1 claim10_env
    { name := ("weird".toList), descr := ("Weird device".toList),
      ioid := some ("Duplex".toList) }
    empty_devices_info 1 ("Duplex".toList) rfl (by decide) (by decide) (by decide)

theorem best_chmap_loop_spec (maps : List Chmap) :
    ∀ b : Chmap,
      ∃ b', handle_channel_maps_best (some b) maps = some b' ∧
        ((b' = b ∧ ∀ v ∈ maps, v.channels ≤ b.channels) ∨
         (∃ pre suf, maps = pre ++ b' :: suf ∧ b.channels < b'.channels ∧
           (∀ v ∈ pre, v.channels < b'.channels) ∧
           (∀ v ∈ suf, v.channels ≤ b'.channels))) := by
  induction maps with
  | nil =>
    intro b
    exact ⟨b, rfl, Or.inl ⟨rfl, by simp⟩⟩
  | cons v rest ih =>
    intro b
    by_cases hv : b.channels < v.channels
    · obtain ⟨b', hb', hcase⟩ := ih v
      refine ⟨b', by simpa [handle_channel_maps_best, hv] using hb', ?_⟩
      rcases hcase with ⟨rfl, hall⟩ | ⟨pre, suf, hsplit, hlt, hpre, hsuf⟩
      · exact Or.inr ⟨[], rest, by simp, hv, by simp, hall⟩
      · refine Or.inr ⟨v :: pre, suf, by simp [hsplit], lt_trans hv hlt, ?_, hsuf⟩
        intro w hw
        rcases List.mem_cons.mp hw with rfl | hw
        · exact hlt
        · exact hpre w hw
    · obtain ⟨b', hb', hcase⟩ := ih b
      refine ⟨b', by simpa [handle_channel_maps_best, hv] using hb', ?_⟩
      rcases hcase with ⟨rfl, hall⟩ | ⟨pre, suf, hsplit, hlt, hpre, hsuf⟩
      · refine Or.inl ⟨rfl, ?_⟩
        intro w hw
        rcases List.mem_cons.mp hw with rfl | hw
        · exact le_of_not_lt hv
        · exact hall w hw
      · refine Or.inr ⟨v :: pre, suf, by simp [hsplit], hlt, ?_, hsuf⟩
        intro w hw
        rcases List.mem_cons.mp hw with rfl | hw
        · exact lt_of_le_of_lt (le_of_not_lt hv) hlt
        · exact hpre w hw

/-- C9: when handle_channel_maps derives a layout from a non-empty list of
channel-map candidates, the selected candidate is one with the greatest
channel count, and every candidate seen before it has strictly fewer
channels — so among candidates sharing the greatest count the first-seen
one wins. -/
theorem claim9_best_chmap_first_max :
    ∀ maps : List Chmap, maps ≠ [] →
      ∃ b pre suf, handle_channel_maps_best none maps = some b ∧
        maps = pre ++ b :: suf ∧
        (∀ v ∈ maps, v.channels ≤ b.channels) ∧
        (∀ v ∈ pre, v.channels < b.channels) := by
  intro maps hne
  match maps with
  | v :: rest =>
    obtain ⟨b', hb', hcase⟩ := best_chmap_loop_spec rest v
    have hstep : handle_channel_maps_best none (v :: rest) =
        handle_channel_maps_best (some v) rest := by
      simp [handle_channel_maps_best]
    rcases hcase with ⟨rfl, hall⟩ | ⟨pre, suf, hsplit, hlt, hpre, hsuf⟩
    · refine ⟨b', [], rest, by rw [hstep]; exact hb', by simp, ?_, by simp⟩
      intro w hw
      rcases List.mem_cons.mp hw with rfl | hw
      · exact le_refl _
      · exact hall w hw
    · refine ⟨b', v :: pre, suf, by rw [hstep]; exact hb', by simp [hsplit], ?_, ?_⟩
      · intro w hw
        rcases List.mem_cons.mp hw with rfl | hw
        · exact le_of_lt hlt
        · rw [hsplit] at hw
          rcases List.mem_append.mp hw with hw | hw
          · exact le_of_lt (hpre w hw)
          · rcases List.mem_cons.mp hw with rfl | hw
            · exact le_refl _
            · exact hsuf w hw
      · intro w hw
        rcases List.mem_cons.mp hw with rfl | hw
        · exact hlt
        · exact hpre w hw

/-- Channel-map candidates with a tie at the greatest count: the stereo
pair first, then two six-channel maps with distinct position lists. -/
def claim9_maps : List Chmap :=
  [{ channels := 2, pos := [3, 4] },
   { channels := 6, pos := [3, 4, 5, 6, 7, 8] },
   { channels := 6, pos := [3, 4, 5, 6, 9, 10] }]

/-- Witness for C9 at the tie scenario. -/
theorem claim9_witness :
    ∃ b pre suf, handle_channel_maps_best none claim9_maps = some b ∧
      claim9_maps = pre ++ b :: suf ∧
      (∀ v ∈ claim9_maps, v.channels ≤ b.channels) ∧
      (∀ v ∈ pre, v.channels < b.channels) :=
  claim9_best_chmap_first_max claim9_maps (by decide)

theorem probe_device_keeps_name (d : Device) (p : ProbeEnv) :
    ((probe_device d p).2).name = d.name := by
  unfold probe_device
  split
  · rfl
  · split <;> rfl

theorem probe_device_keeps_raw_purpose (d : Device) (p : ProbeEnv) :
    ((probe_device d p).2).is_raw = d.is_raw ∧
    ((probe_device d p).2).purpose = d.purpose := by
  unfold probe_device
  split
  · exact ⟨rfl, rfl⟩
  · split <;> exact ⟨rfl, rfl⟩

theorem process_hint_stream_output_shape (env : AlsaEnv) (name descr : Str)
    (descr1 : Option Str) (pb cap : Bool) (info : DevicesInfo) (ac : Nat)
    (r : DevicesInfo × Nat)
    (h : process_hint_stream env name descr descr1 pb cap Purpose.output info ac =
      Outcome.ok r) :
    r.1.input_devices = info.input_devices ∧
    r.1.default_input_index = info.default_input_index ∧
    (r.1 = info ∨
      ∃ d, r.1.output_devices = info.output_devices ++ [d] ∧
        d.name = name ∧ d.is_raw = false ∧ d.purpose = Purpose.output ∧
        r.1.default_output_index =
          (if str_has_prefix name ("default:".toList) = true
           then some info.output_devices.length else info.default_output_index)) := by
  simp only [process_hint_stream] at h
  repeat' split at h
  all_goals simp_all
  all_goals subst h
  all_goals
    first
      | exact ⟨rfl, rfl, Or.inl rfl⟩
      | exact ⟨rfl, rfl, Or.inr ⟨_, rfl, probe_device_keeps_name _ _,
          (probe_device_keeps_raw_purpose _ _).1, (probe_device_keeps_raw_purpose _ _).2, rfl⟩⟩

theorem process_hint_stream_input_shape (env : AlsaEnv) (name descr : Str)
    (descr1 : Option Str) (pb cap : Bool) (info : DevicesInfo) (ac : Nat)
    (r : DevicesInfo × Nat)
    (h : process_hint_stream env name descr descr1 pb cap Purpose.input info ac =
      Outcome.ok r) :
    r.1.output_devices = info.output_devices ∧
    r.1.default_output_index = info.default_output_index ∧
    (r.1 = info ∨
      ∃ d, r.1.input_devices = info.input_devices ++ [d] ∧
        d.name = name ∧ d.is_raw = false ∧ d.purpose = Purpose.input ∧
        r.1.default_input_index =
          (if str_has_prefix name ("default:".toList) = true
           then some info.input_devices.length else info.default_input_index)) := by
  simp only [process_hint_stream] at h
  simp only [eq_false (by decide : ¬(Purpose.input = Purpose.output)),
    eq_true (rfl : Purpose.input = Purpose.input), false_and, true_and,
    if_false, if_true] at h
  repeat' split at h
  any_goals exact Outcome.noConfusion h
  all_goals injection h with h
  all_goals subst h
  all_goals
    first
      | exact ⟨rfl, rfl, Or.inl rfl⟩
      | (refine ⟨rfl, rfl, Or.inr ⟨_, rfl, probe_device_keeps_name _ _,
          (probe_device_keeps_raw_purpose _ _).1, (probe_device_keeps_raw_purpose _ _).2, ?_⟩⟩
         split
         all_goals
           first
             | rfl
             | (rename_i hx
                exact absurd ‹ str_has_prefix name _ = true› hx)
             | (rename_i hx
                exact absurd hx ‹¬ str_has_prefix name _ = true›))

theorem process_hint_stream_input_suppressed (env : AlsaEnv) (name descr : Str)
    (descr1 : Option Str) (pb cap : Bool) (info : DevicesInfo) (ac : Nat)
    (hm : descr1_mentions_output descr1 = true) :
    process_hint_stream env name descr descr1 pb cap Purpose.input info ac =
      Outcome.ok (info, ac) := by
  simp only [process_hint_stream]
  split
  · rfl
  · split
    · rfl
    · split
      · rfl
      · rename_i hnc
        exact absurd ⟨by trivial, hm⟩ hnc

/-- Case-insensitive substring containment, formalising the claim's
"contains the word output in any letter case". -/
def contains_ci (hay needle : Str) : Bool :=
  strstr_found (hay.map Char.toLower) (needle.map Char.toLower)

/-- A capture hint whose secondary description line spells OUTPUT in
upper case. -/
def claim3_env : AlsaEnv :=
  { alloc_fail_at := none, hints_ok := true,
    hints := [{ name := ("mic0".toList),
                descr := ("Microphone\nFor the OUTPUT jack".toList),
                ioid := some ("Input".toList) }],
    probe := fun _ _ => sample_probe_query, card_steps := [] }

/-- C3 counterexample: the secondary description text "For the OUTPUT
jack" contains the word "output" in a letter case the code does not
check, and the pass still creates a capture descriptor from that hint —
alsa.cpp:311 matches only the exact spellings "Output" and "output", so
the claim's "in any letter case" fails on the code. -/
theorem claim3_counterexample :
    contains_ci ("For the OUTPUT jack".toList) ("output".toList) = true ∧
    (enumerate_pass claim3_env).isOk = true ∧
    ((enumerate_pass claim3_env).okD empty_devices_info).input_devices.map
      (fun d => d.name) = [("mic0".toList)] := by
  decide

/-- C3 amended: a capture-direction logical descriptor is never created
from a hint whose secondary description text contains "Output" or
"output" with exactly those spellings: processing such a hint leaves the
input list unchanged. -/
theorem claim3_capture_suppressed :
    ∀ (env : AlsaEnv) (h : Hint) (info : DevicesInfo) (ac : Nat) (r : DevicesInfo × Nat),
      descr1_mentions_output (str_partition_on_char h.descr '\n').2 = true →
      process_hint env h info ac = Outcome.ok r →
      r.1.input_devices = info.input_devices := by
  intro env h info ac r hm hp
  unfold process_hint at hp
  split at hp
  · injection hp with hp
    subst hp
    rfl
  · split at hp
    · exact Outcome.noConfusion hp
    · exact Outcome.noConfusion hp
    · split at hp
      · exact Outcome.noConfusion hp
      · exact Outcome.noConfusion hp
      · rename_i r0 heq
        rw [process_hint_stream_input_suppressed env h.name
          (str_partition_on_char h.descr '\n').1
          (str_partition_on_char h.descr '\n').2 _ _ r0.1 r0.2 hm] at hp
        injection hp with hp
        subst hp
        exact (process_hint_stream_output_shape env h.name
          (str_partition_on_char h.descr '\n').1
          (str_partition_on_char h.descr '\n').2 _ _ info ac r0 heq).1

/-- A hint whose secondary description line is exactly "Output jack". -/
def claim3w_hint : Hint :=
  { name := ("spk0".toList), descr := ("Speaker\nOutput jack".toList), ioid := none }

/-- Witness for the amended C3 at that hint: processing it leaves the
input list unchanged. -/
theorem claim3_witness :
    (((process_hint claim3_env claim3w_hint empty_devices_info 1).okD
        (empty_devices_info, 0)).1).input_devices = empty_devices_info.input_devices :=
  claim3_capture_suppressed claim3_env claim3w_hint empty_devices_info 1
    ((process_hint claim3_env claim3w_hint empty_devices_info 1).okD (empty_devices_info, 0))
    (by decide) (by decide)

/-- The hint list of the C5 scenario: "default:CARD" with no IOID, then
"null" and "sysdefault:CARD"; no raw cards. -/
def claim5_env : AlsaEnv :=
  { alloc_fail_at := none, hints_ok := true,
    hints := [{ name := ("default:CARD".toList),
                descr := ("Default Audio Device".toList), ioid := none },
              { name := ("null".toList),
                descr := ("Discard all samples".toList), ioid := none },
              { name := ("sysdefault:CARD".toList),
                descr := ("Default Audio Device".toList), ioid := none }],
    probe := fun _ _ => sample_probe_query, card_steps := [] }

/-- C5: over the scenario hint list the pass yields exactly one output and
one input descriptor, both named "default:CARD", both non-raw, with both
default indexes set to 0, while "null" and "sysdefault:CARD" yield none;
and in general a hint name carrying the "default:" marker sets the
default index of the list being appended to the position of the appended
descriptor. -/
theorem claim5_default_marker_scenario :
    ((enumerate_pass claim5_env).isOk = true ∧
     ((enumerate_pass claim5_env).okD empty_devices_info).output_devices.map
        (fun d => (d.name, d.is_raw, d.purpose)) =
          [(("default:CARD".toList), false, Purpose.output)] ∧
     ((enumerate_pass claim5_env).okD empty_devices_info).input_devices.map
        (fun d => (d.name, d.is_raw, d.purpose)) =
          [(("default:CARD".toList), false, Purpose.input)] ∧
     ((enumerate_pass claim5_env).okD empty_devices_info).default_output_index = some 0 ∧
     ((enumerate_pass claim5_env).okD empty_devices_info).default_input_index = some 0) ∧
    (∀ (env : AlsaEnv) (name descr : Str) (descr1 : Option Str) (pb cap : Bool)
        (info : DevicesInfo) (ac : Nat) (r : DevicesInfo × Nat),
      str_has_prefix name ("default:".toList) = true →
      process_hint_stream env name descr descr1 pb cap Purpose.output info ac = Outcome.ok r →
      (r.1 = info ∨ ∃ d, r.1.output_devices = info.output_devices ++ [d] ∧
        r.1.default_output_index = some info.output_devices.length)) ∧
    (∀ (env : AlsaEnv) (name descr : Str) (descr1 : Option Str) (pb cap : Bool)
        (info : DevicesInfo) (ac : Nat) (r : DevicesInfo × Nat),
      str_has_prefix name ("default:".toList) = true →
      process_hint_stream env name descr descr1 pb cap Purpose.input info ac = Outcome.ok r →
      (r.1 = info ∨ ∃ d, r.1.input_devices = info.input_devices ++ [d] ∧
        r.1.default_input_index = some info.input_devices.length)) := by
  refine ⟨by decide, ?_, ?_⟩
  · intro env name descr descr1 pb cap info ac r hpre hok
    rcases (process_hint_stream_output_shape env name descr descr1 pb cap info ac r hok).2.2 with
      hsame | ⟨d, happ, _, _, _, hdef⟩
    · exact Or.inl hsame
    · refine Or.inr ⟨d, happ, ?_⟩
      rw [hdef, if_pos hpre]
  · intro env name descr descr1 pb cap info ac r hpre hok
    rcases (process_hint_stream_input_shape env name descr descr1 pb cap info ac r hok).2.2 with
      hsame | ⟨d, happ, _, _, _, hdef⟩
    · exact Or.inl hsame
    · refine Or.inr ⟨d, happ, ?_⟩
      rw [hdef, if_pos hpre]

/-- The output-stream step of the C5 scenario's first hint. -/
def claim5w_result : Outcome (DevicesInfo × Nat) :=
  process_hint_stream claim5_env ("default:CARD".toList) ("Default Audio Device".toList)
    none true true Purpose.output empty_devices_info 1

/-- Witness for C5's general clause at the scenario's first hint. -/
theorem claim5_witness :
    (claim5w_result.okD (empty_devices_info, 0)).1 = empty_devices_info ∨
    ∃ d, (claim5w_result.okD (empty_devices_info, 0)).1.output_devices =
        empty_devices_info.output_devices ++ [d] ∧
      (claim5w_result.okD (empty_devices_info, 0)).1.default_output_index =
        some empty_devices_info.output_devices.length :=
  claim5_default_marker_scenario.2.1 claim5_env ("default:CARD".toList)
    ("Default Audio Device".toList) none true true empty_devices_info 1
    (claim5w_result.okD (empty_devices_info, 0)) (by decide) (by decide)

/-- The name exclusions C4 asserts for every published descriptor:
exactly "null", a "sysdefault:" prefix, or one of the fixed surround-N
prefixes (a subset of the hint exclusion list of alsa.cpp:266-278). -/
def claim4_bad_name (n : Str) : Bool :=
  n == ("null".toList) ||
  str_has_prefix n ("sysdefault:".toList) ||
  str_has_prefix n ("surround21:".toList) ||
  str_has_prefix n ("surround40:".toList) ||
  str_has_prefix n ("surround41:".toList) ||
  str_has_prefix n ("surround50:".toList) ||
  str_has_prefix n ("surround51:".toList) ||
  str_has_prefix n ("surround71:".toList)

theorem excluded_false_bad_false (n : Str) (h : hint_name_excluded n = false) :
    claim4_bad_name n = false := by
  unfold hint_name_excluded at h
  unfold claim4_bad_name
  simp only [Bool.or_eq_false_iff] at h ⊢
  tauto

theorem claim4_bad_name_cons_h (t : Str) : claim4_bad_name ('h' :: t) = false := by
  unfold claim4_bad_name
  rw [show ("null".toList : Str) = 'n' :: ("ull".toList) from rfl,
      show ("sysdefault:".toList : Str) = 's' :: ("ysdefault:".toList) from rfl,
      show ("surround21:".toList : Str) = 's' :: ("urround21:".toList) from rfl,
      show ("surround40:".toList : Str) = 's' :: ("urround40:".toList) from rfl,
      show ("surround41:".toList : Str) = 's' :: ("urround41:".toList) from rfl,
      show ("surround50:".toList : Str) = 's' :: ("urround50:".toList) from rfl,
      show ("surround51:".toList : Str) = 's' :: ("urround51:".toList) from rfl,
      show ("surround71:".toList : Str) = 's' :: ("urround71:".toList) from rfl]
  simp [ str_has_prefix]

theorem raw_name_not_bad (a b : Nat) : claim4_bad_name (raw_device_name a b) = false := by
  have e : raw_device_name a b =
      'h' :: ('w' :: (':' :: ((Nat.repr a).toList ++ ',' :: (Nat.repr b).toList))) := rfl
  rw [e]
  exact claim4_bad_name_cons_h _

/-- Invariant carried through an enumeration pass: no device in either
list bears one of the names C4 excludes. -/
def info_names_ok (info : DevicesInfo) : Prop :=
  (∀ d ∈ info.output_devices, claim4_bad_name d.name = false) ∧
  (∀ d ∈ info.input_devices, claim4_bad_name d.name = false)

theorem forall_mem_append_singleton {P : Device → Prop} {l : List Device} {d : Device}
    (hl : ∀ x ∈ l, P x) (hd : P d) : ∀ x ∈ l ++ [d], P x := by
  intro x hx
  rcases List.mem_append.mp hx with hx | hx
  · exact hl x hx
  · rw [List.mem_singleton.mp hx]
    exact hd

theorem names_ok_stream_output (env : AlsaEnv) (name descr : Str) (descr1 : Option Str)
    (pb cap : Bool) (info : DevicesInfo) (ac : Nat) (r : DevicesInfo × Nat)
    (hok : process_hint_stream env name descr descr1 pb cap Purpose.output info ac =
      Outcome.ok r)
    (hinv : info_names_ok info) (hname : claim4_bad_name name = false) :
    info_names_ok r.1 := by
  rcases process_hint_stream_output_shape env name descr descr1 pb cap info ac r hok with
    ⟨hin, hdin, hout⟩
  rcases hout with heq | ⟨d, happ, hdn, _, _, _⟩
  · rw [heq]
    exact hinv
  · constructor
    · rw [happ]
      exact forall_mem_append_singleton hinv.1 (by rw [hdn]; exact hname)
    · rw [hin]
      exact hinv.2

theorem names_ok_stream_input (env : AlsaEnv) (name descr : Str) (descr1 : Option Str)
    (pb cap : Bool) (info : DevicesInfo) (ac : Nat) (r : DevicesInfo × Nat)
    (hok : process_hint_stream env name descr descr1 pb cap Purpose.input info ac =
      Outcome.ok r)
    (hinv : info_names_ok info) (hname : claim4_bad_name name = false) :
    info_names_ok r.1 := by
  rcases process_hint_stream_input_shape env name descr descr1 pb cap info ac r hok with
    ⟨hout, hdout, hin⟩
  rcases hin with heq | ⟨d, happ, hdn, _, _, _⟩
  · rw [heq]
    exact hinv
  · constructor
    · rw [hout]
      exact hinv.1
    · rw [happ]
      exact forall_mem_append_singleton hinv.2 (by rw [hdn]; exact hname)

theorem process_hint_names_ok (env : AlsaEnv) (h : Hint) (info : DevicesInfo) (ac : Nat)
    (r : DevicesInfo × Nat)
    (hok : process_hint env h info ac = Outcome.ok r)
    (hinv : info_names_ok info) : info_names_ok r.1 := by
  unfold process_hint at hok
  split at hok
  · injection hok with hok
    subst hok
    exact hinv
  · rename_i hexc
    have hex : hint_name_excluded h.name = false := by
      cases hb : hint_name_excluded h.name
      · rfl
      · exact absurd hb hexc
    have hname : claim4_bad_name h.name = false := excluded_false_bad_false _ hex
    split at hok
    · exact Outcome.noConfusion hok
    · exact Outcome.noConfusion hok
    · split at hok
      · exact Outcome.noConfusion hok
      · exact Outcome.noConfusion hok
      · rename_i r0 heq
        exact names_ok_stream_input env h.name _ _ _ _ r0.1 r0.2 r hok
          (names_ok_stream_output env h.name _ _ _ _ info ac r0 heq hinv hname) hname

theorem process_hints_names_ok (env : AlsaEnv) :
    ∀ (hs : List Hint) (info : DevicesInfo) (ac : Nat) (r : DevicesInfo × Nat),
      process_hints env hs info ac = Outcome.ok r →
      info_names_ok info → info_names_ok r.1 := by
  intro hs
  induction hs with
  | nil =>
    intro info ac r hok hinv
    injection hok with hok
    subst hok
    exact hinv
  | cons h rest ih =>
    intro info ac r hok hinv
    unfold process_hints at hok
    split at hok
    · exact Outcome.noConfusion hok
    · exact Outcome.noConfusion hok
    · rename_i r0 heq
      exact ih r0.1 r0.2 r hok (process_hint_names_ok env h info ac r0 heq hinv)

theorem raw_device_stream_shape (env : AlsaEnv) (c : Card) (d : PcmDev)
    (stream : Purpose) (info : DevicesInfo) (ac : Nat) (r : DevicesInfo × Nat)
    (h : raw_device_stream env c d stream info ac = Outcome.ok r) :
    (r.1.output_devices = info.output_devices ∨
      ∃ dev, r.1.output_devices = info.output_devices ++ [dev] ∧
        dev.name = raw_device_name c.index d.index) ∧
    (r.1.input_devices = info.input_devices ∨
      ∃ dev, r.1.input_devices = info.input_devices ++ [dev] ∧
        dev.name = raw_device_name c.index d.index) := by
  unfold raw_device_stream at h
  repeat' split at h
  any_goals exact Outcome.noConfusion h
  all_goals injection h with h
  all_goals subst h
  all_goals
    first
      | exact ⟨Or.inl rfl, Or.inl rfl⟩
      | exact ⟨Or.inr ⟨_, rfl, probe_device_keeps_name _ _⟩, Or.inl rfl⟩
      | exact ⟨Or.inl rfl, Or.inr ⟨_, rfl, probe_device_keeps_name _ _⟩⟩

theorem names_ok_raw_stream (env : AlsaEnv) (c : Card) (d : PcmDev)
    (stream : Purpose) (info : DevicesInfo) (ac : Nat) (r : DevicesInfo × Nat)
    (h : raw_device_stream env c d stream info ac = Outcome.ok r)
    (hinv : info_names_ok info) : info_names_ok r.1 := by
  rcases raw_device_stream_shape env c d stream info ac r h with ⟨hout, hin⟩
  constructor
  · rcases hout with heq | ⟨dev, happ, hdn⟩
    · rw [heq]
      exact hinv.1
    · rw [happ]
      exact forall_mem_append_singleton hinv.1 (by rw [hdn]; exact raw_name_not_bad _ _)
  · rcases hin with heq | ⟨dev, happ, hdn⟩
    · rw [heq]
      exact hinv.2
    · rw [happ]
      exact forall_mem_append_singleton hinv.2 (by rw [hdn]; exact raw_name_not_bad _ _)

theorem names_ok_raw_streams (env : AlsaEnv) (c : Card) (d : PcmDev)
    (info : DevicesInfo) (ac : Nat) (r : DevicesInfo × Nat)
    (h : raw_device_streams env c d info ac = Outcome.ok r)
    (hinv : info_names_ok info) : info_names_ok r.1 := by
  unfold raw_device_streams at h
  split at h
  · exact Outcome.noConfusion h
  · exact Outcome.noConfusion h
  · rename_i r0 heq
    exact names_ok_raw_stream env c d Purpose.input r0.1 r0.2 r h
      (names_ok_raw_stream env c d Purpose.output info ac r0 heq hinv)

theorem scan_card_devs_names_ok (env : AlsaEnv) (c : Card) :
    ∀ (steps : List DevStep) (info : DevicesInfo) (ac : Nat) (r : DevicesInfo × Nat),
      scan_card_devs env c steps info ac = Outcome.ok r →
      info_names_ok info → info_names_ok r.1 := by
  intro steps
  induction steps with
  | nil =>
    intro info ac r h hinv
    injection h with h
    subst h
    exact hinv
  | cons s rest ih =>
    intro info ac r h hinv
    cases s with
    | nextErr => exact Outcome.noConfusion h
    | dev d =>
      unfold scan_card_devs at h
      split at h
      · exact Outcome.noConfusion h
      · exact Outcome.noConfusion h
      · rename_i r0 heq
        exact ih r0.1 r0.2 r h (names_ok_raw_streams env c d info ac r0 heq hinv)

theorem scan_cards_names_ok (env : AlsaEnv) :
    ∀ (steps : List CardStep) (info : DevicesInfo) (ac : Nat) (r : DevicesInfo × Nat),
      scan_cards env steps info ac = Outcome.ok r →
      info_names_ok info → info_names_ok r.1 := by
  intro steps
  induction steps with
  | nil =>
    intro info ac r h hinv
    injection h with h
    subst h
    exact hinv
  | cons s rest ih =>
    intro info ac r h hinv
    cases s with
    | nextErr => exact Outcome.noConfusion h
    | card c =>
      unfold scan_cards at h
      split at h
      · injection h with h
        subst h
        exact hinv
      · exact Outcome.noConfusion h
      · split at h
        · exact Outcome.noConfusion h
        · split at h
          · exact Outcome.noConfusion h
          · exact Outcome.noConfusion h
          · rename_i r0 heq
            exact ih r0.1 r0.2 r h (scan_card_devs_names_ok env c c.devs info ac r0 heq hinv)

theorem enumerate_pass_names_ok (env : AlsaEnv) (info : DevicesInfo)
    (h : enumerate_pass env = Outcome.ok info) : info_names_ok info := by
  unfold enumerate_pass at h
  split at h
  · exact Outcome.noConfusion h
  · split at h
    · exact Outcome.noConfusion h
    · split at h
      · exact Outcome.noConfusion h
      · exact Outcome.noConfusion h
      · rename_i r0 heq0
        split at h
        · exact Outcome.noConfusion h
        · exact Outcome.noConfusion h
        · rename_i r2 heq2
          injection h with h
          subst h
          exact scan_cards_names_ok env env.card_steps r0.1 r0.2 r2 heq2
            (process_hints_names_ok env env.hints empty_devices_info 1 r0 heq0
              (by constructor <;> simp [empty_devices_info]))

/-- C4: for every completed enumeration pass, neither list of the
published snapshot contains a descriptor named "null" or one whose name
is prefixed by "sysdefault:" or by one of the fixed surround-N aliases. -/
theorem claim4_no_excluded_names :
    ∀ (env : AlsaEnv) (st : AlsaState) (info : DevicesInfo),
      (refresh_devices env st).1 = Outcome.ok () →
      (refresh_devices env st).2.ready_devices_info = some info →
      (∀ d ∈ info.output_devices, claim4_bad_name d.name = false) ∧
      (∀ d ∈ info.input_devices, claim4_bad_name d.name = false) := by
  intro env st info h1 h2
  unfold refresh_devices at h1 h2
  cases he : enumerate_pass env <;> rw [he] at h1 h2
  case ok a =>
    simp only [Option.some.injEq] at h2
    subst h2
    exact enumerate_pass_names_ok env _ he
  case err e => exact Outcome.noConfusion h1
  case panic m => exact Outcome.noConfusion h1

/-- An environment with one logical hint and one raw card exposing a
playback-only sub-device. -/
def claim4_env : AlsaEnv :=
  { alloc_fail_at := none, hints_ok := true,
    hints := [{ name := ("default:CARD".toList),
                descr := ("Default Audio Device".toList), ioid := none }],
    probe := fun _ _ => sample_probe_query,
    card_steps := [CardStep.card
      { index := 0, ctl_open := CtlOpenResult.opened, info_ok := true,
        name := ("HDA Intel".toList),
        devs := [DevStep.dev
          { index := 0, name := ("ALC255 Analog".toList),
            playback := StreamStatus.present, capture := StreamStatus.absent }] }] }

/-- The state before the C4 witness refresh. -/
def claim4_state : AlsaState :=
  { ready_devices_info := none, have_devices_flag := false }

/-- The snapshot that refresh publishes in the C4 witness run. -/
def claim4_info : DevicesInfo :=
  ((refresh_devices claim4_env claim4_state).2.ready_devices_info).getD empty_devices_info

/-- Witness for C4 at that concrete refresh. -/
theorem claim4_witness :
    (∀ d ∈ claim4_info.output_devices, claim4_bad_name d.name = false) ∧
    (∀ d ∈ claim4_info.input_devices, claim4_bad_name d.name = false) :=
  claim4_no_excluded_names claim4_env claim4_state claim4_info (by decide) (by decide)
